import Mathlib

/-!
Shallow embedding of the pihole-api client core (error taxonomy, HTTP retry
orchestrator, session manager, request facade) and proofs about its
specified behaviour.  Effectful boundaries (the network, the clock, the
backend) are modelled as explicit oracle parameters; each attempt's outcome
is supplied by an oracle function, and stateful methods are modelled as
pure state transformers.
-/

namespace PiholeApi

/-- JS truthiness of an optional string field: `undefined`/`null` and the
empty string are falsy. -/
def truthy : Option String → Bool
  | none => false
  | some s => s ≠ ""

/-! Section: embedding of src/errors.ts. -/

/-- Error codes for Pi-hole API errors (enum `PiholeErrorCode`). -/
inductive PiholeErrorCode where
  | Unauthorized
  | TotpRequired
  | InvalidTotp
  | SessionExpired
  | NetworkError
  | Timeout
  | ConnectionRefused
  | CertificateError
  | BadRequest
  | NotFound
  | Conflict
  | ValidationError
  | ServerError
  | ServiceUnavailable
  | ParseError
  | Unknown
deriving DecidableEq, Repr

/-- Pi-hole API error value (`interface PiholeError`). -/
structure PiholeError where
  code : PiholeErrorCode
  message : String
  status : Nat
  hint : Option String
  apiKey : Option String
deriving DecidableEq, Repr

/-- Embeds `createError(code, message, status, options?)`. -/
def createError (code : PiholeErrorCode) (message : String) (status : Nat)
    (hint : Option String := none) (apiKey : Option String := none) : PiholeError :=
  ⟨code, message, status, hint, apiKey⟩

/-- Embeds `statusToErrorCode`: map an HTTP status to an error code.  The source is
a `switch` with a default branch; we embed it as the equivalent chain of
equality tests. -/
def statusToErrorCode (status : Nat) : PiholeErrorCode :=
  if status = 400 then .BadRequest
  else if status = 401 then .Unauthorized
  else if status = 403 then .Unauthorized
  else if status = 404 then .NotFound
  else if status = 409 then .Conflict
  else if status = 422 then .ValidationError
  else if status = 500 then .ServerError
  else if status = 502 then .ServiceUnavailable
  else if status = 503 then .ServiceUnavailable
  else if status = 504 then .ServiceUnavailable
  else if 400 ≤ status ∧ status < 500 then .BadRequest
  else .ServerError

/-- Embeds `apiKeyToErrorCode`: map a Pi-hole API error key to an error code. -/
def apiKeyToErrorCode (key : String) : PiholeErrorCode :=
  if key = "unauthorized" then .Unauthorized
  else if key = "auth_failed" then .Unauthorized
  else if key = "totp_required" then .TotpRequired
  else if key = "bad_totp" then .InvalidTotp
  else if key = "session_expired" then .SessionExpired
  else if key = "not_found" then .NotFound
  else if key = "conflict" then .Conflict
  else if key = "bad_request" then .BadRequest
  else .Unknown

/-- Embeds `isRetryable`: true only for the four transient error kinds. -/
def isRetryable (code : PiholeErrorCode) : Bool :=
  code = .NetworkError || code = .Timeout ||
  code = .ServiceUnavailable || code = .ServerError

/-- Embeds `isAuthError`: true when the error indicates authentication is required. -/
def isAuthError (code : PiholeErrorCode) : Bool :=
  code = .Unauthorized || code = .SessionExpired || code = .TotpRequired

/-! Section: embedding of src/result.ts. -/

/-- The `Result` outcome type (`Ok | Err`). -/
inductive Result (α ε : Type) where
  | ok (data : α)
  | err (error : ε)
deriving DecidableEq, Repr

/-- Embeds the `isOk` type guard. -/
def Result.isOk {α ε : Type} : Result α ε → Bool
  | .ok _ => true
  | .err _ => false

/-! Section: embedding of src/http.ts. -/

/-- HTTP client configuration (`interface HttpConfig`).  All durations are
in milliseconds; the JS numbers involved are small non-negative integers,
so `Nat` is exact. -/
structure HttpConfig where
  baseUrl : String
  timeout : Nat
  maxRetries : Nat
  retryDelayBase : Nat
  retryDelayMax : Nat
  backoffMultiplier : Nat
deriving DecidableEq, Repr

/-- Embeds `DEFAULT_HTTP_CONFIG`. -/
def DEFAULT_HTTP_CONFIG : HttpConfig :=
  { baseUrl := ""
    timeout := 10000
    maxRetries := 3
    retryDelayBase := 1000
    retryDelayMax := 10000
    backoffMultiplier := 2 }

namespace HttpClient

/-- Embeds `calculateDelay(attempt)`: exponential backoff capped at
`retryDelayMax` (`Math.min(base * multiplier^attempt, max)`). -/
def calculateDelay (cfg : HttpConfig) (attempt : Nat) : Nat :=
  min (cfg.retryDelayBase * cfg.backoffMultiplier ^ attempt) cfg.retryDelayMax

/-- Observable trace of one `HttpClient.request` call: the returned result,
how many single-attempt executions (`executeRequest`) were made, and the
backoff delays slept between attempts, in order. -/
structure RequestTrace (α : Type) where
  result : Result α PiholeError
  attemptsMade : Nat
  delays : List Nat
deriving Repr

/-- The retry loop of `HttpClient.request`, parameterised by an oracle
`exec` giving the outcome of the attempt with each 0-based index.
`remaining` is the number of loop iterations left (`maxAttempts - attempt`);
`attempt` is the current attempt index; `lastError` mirrors the source's
`lastError` accumulator.  After a retryable failure the source sleeps only
when `attempt < maxAttempts - 1`, i.e. when at least one iteration remains
after this one. -/
def requestLoop {α : Type} (cfg : HttpConfig) (exec : Nat → Result α PiholeError) :
    Nat → Nat → Option PiholeError → RequestTrace α
  | 0, _, lastError =>
    ⟨.err (lastError.getD (createError .Unknown "Request failed" 0)), 0, []⟩
  | remaining + 1, attempt, _ =>
    match exec attempt with
    | .ok d => ⟨.ok d, 1, []⟩
    | .err e =>
      if isRetryable e.code then
        let rest := requestLoop cfg exec remaining (attempt + 1) (some e)
        ⟨rest.result, rest.attemptsMade + 1,
          (if remaining = 0 then [] else [calculateDelay cfg attempt]) ++ rest.delays⟩
      else ⟨.err e, 1, []⟩

/-- Embeds `HttpClient.request(options, authHeaders)`: fails immediately (with no
attempt) when the base URL is unconfigured; otherwise runs the retry loop
with `maxAttempts = 1` when the descriptor sets `noRetry`, else
`maxRetries + 1`. -/
def request {α : Type} (cfg : HttpConfig) (noRetry : Bool)
    (exec : Nat → Result α PiholeError) : RequestTrace α :=
  if cfg.baseUrl = "" then
    ⟨.err (createError .BadRequest "Base URL not configured" 0), 0, []⟩
  else
    requestLoop cfg exec (if noRetry then 1 else cfg.maxRetries + 1) 0 none

/-- Lowercases a string character by character (JS `toLowerCase` /
`String.toLower`, written with structural recursion so that it evaluates
inside the kernel). -/
def strToLower (s : String) : String :=
  ⟨s.data.map Char.toLower⟩

/-- Scan asking whether `pat` occur as a contiguous run
inside the character list?  Mirrors JS `String.prototype.includes`. -/
def includesFrom (pat : List Char) : List Char → Bool
  | [] => pat.isEmpty
  | c :: rest => pat.isPrefixOf (c :: rest) || includesFrom pat rest

/-- JS `s.includes(pat)` on strings. -/
def strIncludes (s pat : String) : Bool :=
  includesFrom pat.data s.data

/-- The parsed JSON error body of a non-2xx response:
`{error: {key?, message?, hint?}}`. -/
structure ApiErrorBody where
  key : Option String
  message : Option String
  hint : Option String
deriving DecidableEq, Repr

/-- Embeds `parseErrorResponse(response)`: `body = none` models a response whose
body was absent or not JSON (the source then leaves `errorData` empty).
The source tests the extracted key with JS truthiness (`apiKey ? ... : ...`),
so an empty-string key falls back to the status mapping. -/
def parseErrorResponse (status : Nat) (body : Option ApiErrorBody) : PiholeError :=
  let apiKey : Option String := body.bind (·.key)
  let code : PiholeErrorCode :=
    if truthy apiKey then apiKeyToErrorCode (apiKey.getD "")
    else statusToErrorCode status
  createError code ((body.bind (·.message)).getD ("HTTP " ++ toString status)) status
    (body.bind (·.hint)) apiKey

/-- A value thrown during a fetch attempt: either a JS `Error` (with its
`name` and `message`), or any other thrown value. -/
inductive FetchException where
  | jsError (name : String) (message : String)
  | nonError
deriving DecidableEq, Repr

/-- The SSL/certificate message patterns tested by `handleFetchError`. -/
def sslPattern (msg : String) : Bool :=
  strIncludes msg "ssl" || strIncludes msg "certificate" ||
  strIncludes msg "cert_" || strIncludes msg "sec_error"

/-- The connection-refused message patterns tested by `handleFetchError`. -/
def refusedPattern (msg : String) : Bool :=
  strIncludes msg "econnrefused" || strIncludes msg "connection refused"

/-- Embeds `handleFetchError(error)`: classify a transport-level exception. -/
def handleFetchError : FetchException → PiholeError
  | .jsError nm message =>
    if nm = "AbortError" then createError .Timeout "Request timed out" 0
    else
      let msg := strToLower message
      if sslPattern msg then
        createError .CertificateError "SSL certificate error" 0
          (some "Accept the certificate in your browser first")
      else if refusedPattern msg then
        createError .ConnectionRefused "Connection refused" 0
      else createError .NetworkError message 0
  | .nonError => createError .Unknown "Unknown error occurred" 0

end HttpClient

/-! Section: embedding of src/session.ts. -/

/-- Session state (`interface SessionState`).  Timestamps are Unix
milliseconds. -/
structure SessionState where
  sid : String
  csrf : String
  expiresAt : Nat
  totpRequired : Bool
deriving DecidableEq, Repr

/-- The session object inside a successful auth response
(`{sid, csrf, validity, totp}`; `validity` in seconds). -/
structure Session where
  sid : String
  csrf : String
  validity : Nat
  totp : Bool
deriving DecidableEq, Repr

/-- Embeds the `AuthResponse` success body: `{session: {...}}`. -/
structure AuthResponse where
  session : Session
deriving DecidableEq, Repr

/-- Session manager configuration (`interface SessionConfig`). -/
structure SessionConfig where
  password : Option String
  sid : Option String
  csrf : Option String
  autoRefresh : Bool
  refreshThreshold : Nat
deriving DecidableEq, Repr

namespace SessionManager

/-- The mutable fields of `SessionManager` relevant to its single-step
operations (`state` and `password`; the `refreshPromise` marker is modelled
separately in `EnsureWorld`, where concurrency matters). -/
structure State where
  state : Option SessionState
  password : Option String
deriving DecidableEq, Repr

/-- The constructor of `SessionManager`: stores the password when truthy
and initialises the session from a pre-existing truthy sid/csrf pair with a
5-minute assumed expiry. -/
def mkSessionManager (config : SessionConfig) (now : Nat) : State :=
  { password := if truthy config.password then config.password else none
    state :=
      if truthy config.sid && truthy config.csrf then
        some ⟨config.sid.getD "", config.csrf.getD "", now + 300000, false⟩
      else none }

/-- Embeds `isExpired()`: no session counts as expired. -/
def isExpired (now : Nat) (s : Option SessionState) : Bool :=
  match s with
  | none => true
  | some st => st.expiresAt ≤ now

/-- Embeds `hasSession()`: a session exists and is not expired. -/
def hasSession (now : Nat) (s : Option SessionState) : Bool :=
  s.isSome && !isExpired now s

/-- Embeds `needsRefresh()`: auto-refresh on, a session exists, and now is within
`refreshThreshold` seconds of expiry.  JS computes
`expiresAt - threshold*1000` which may be negative; with `Nat` truncated
subtraction the comparison's value is unchanged (both sides are then
trivially satisfied). -/
def needsRefresh (cfg : SessionConfig) (now : Nat) (s : Option SessionState) : Bool :=
  match s with
  | none => false
  | some st => cfg.autoRefresh && (st.expiresAt - cfg.refreshThreshold * 1000 ≤ now)

/-- Embeds `isTotpRequired()`. -/
def isTotpRequired (s : Option SessionState) : Bool :=
  match s with
  | none => false
  | some st => st.totpRequired

/-- Embeds `getAuthHeaders()`: the `X-FTL-SID` / `X-FTL-CSRF` pair when a session
object exists. -/
def getAuthHeaders (s : Option SessionState) : Option (String × String) :=
  match s with
  | none => none
  | some st => some (st.sid, st.csrf)

/-- Embeds `clear()`. -/
def clear (st : State) : State :=
  { st with state := none }

/-- Embeds `updateSession(session)`: replace the session wholesale with an
absolute expiry `now + validity * 1000`. -/
def updateSession (st : State) (now : Nat) (session : Session) : State :=
  { st with state := some ⟨session.sid, session.csrf, now + session.validity * 1000, false⟩ }

/-- Outcome of one session-manager operation: the post state, the returned
boolean, and whether a network call was issued. -/
structure OpResult where
  state : State
  returned : Bool
  madeCall : Bool
deriving DecidableEq, Repr

/-- Embeds `authenticate(totp?)`: returns false with no network call when no
truthy password is stored; otherwise issues one non-retried login request
whose outcome is the oracle `loginResult`.  On failure with code
`TotpRequired` the session becomes the inert two-factor state; on any other
failure the state is untouched; on success the session is replaced via
`updateSession`. -/
def authenticate (st : State) (now : Nat)
    (loginResult : Result AuthResponse PiholeError) : OpResult :=
  if truthy st.password = false then ⟨st, false, false⟩
  else
    match loginResult with
    | .err e =>
      if e.code = .TotpRequired then
        ⟨{ st with state := some ⟨"", "", 0, true⟩ }, false, true⟩
      else ⟨st, false, true⟩
    | .ok resp => ⟨updateSession st now resp.session, true, true⟩

/-- Embeds `logout()`: no-op success when no session object exists; otherwise one
non-retried logout call (outcome `serverResult`), after which local state is
always cleared; a 401 failure counts as success. -/
def logout (st : State) (serverResult : Result Unit PiholeError) : OpResult :=
  match st.state with
  | none => ⟨st, true, false⟩
  | some _ =>
    let cleared := clear st
    match serverResult with
    | .ok _ => ⟨cleared, true, true⟩
    | .err e => ⟨cleared, e.status = 401, true⟩

/-- Embeds `handleUnauthorized()`: discard the current session, then
`authenticate()` with no TOTP. -/
def handleUnauthorized (st : State) (now : Nat)
    (loginResult : Result AuthResponse PiholeError) : OpResult :=
  authenticate { st with state := none } now loginResult

end SessionManager

/-! Section: the ensureSession concurrency model.

JavaScript runs async functions under single-threaded run-to-completion
scheduling: each synchronous segment between `await`s executes atomically.
The synchronous prefix of `ensureSession()` — the `hasSession()/
needsRefresh()` check, the `refreshPromise` check, and (when neither
applies) storing `this.refreshPromise = this.authenticate()` — is one such
atomic segment, and the body of `authenticate()` up to its `await` (which
performs the truthy-password check and, when it passes, issues the single
login request) runs synchronously inside it.  `EnsureWorld` records the
shared mutable state plus observational counters; `enterStep` is one
caller's atomic entry segment; `settleStep` is the resolution of the shared
in-flight attempt (every awaiting caller resumes with the same boolean, the
session is updated by the attempt, and the starting caller nulls the
`refreshPromise` marker). -/

/-- Shared state plus observation counters for concurrent `ensureSession`
calls: the session, the stored password, whether a `refreshPromise` is
pending, how many login requests reached the backend, how many callers are
awaiting the pending attempt, and the booleans returned to callers so far. -/
structure EnsureWorld where
  session : Option SessionState
  password : Option String
  pending : Bool
  loginRequests : Nat
  waiters : Nat
  results : List Bool
deriving DecidableEq, Repr

namespace SessionManager

/-- Embeds `hasSession() && !needsRefresh()`: the fast path of `ensureSession`. -/
def sessionUsable (cfg : SessionConfig) (now : Nat) (s : Option SessionState) : Bool :=
  hasSession now s && !needsRefresh cfg now s

/-- One caller's atomic entry into `ensureSession()`. -/
def enterStep (cfg : SessionConfig) (now : Nat) (w : EnsureWorld) : EnsureWorld :=
  if sessionUsable cfg now w.session then
    { w with results := true :: w.results }
  else if w.pending then
    { w with waiters := w.waiters + 1 }
  else
    { w with pending := true
             loginRequests := w.loginRequests + (if truthy w.password then 1 else 0)
             waiters := w.waiters + 1 }

/-- Iterates `n` callers entering `ensureSession()` one after another, before the
in-flight attempt settles. -/
def enterMany (cfg : SessionConfig) (now : Nat) (w : EnsureWorld) : Nat → EnsureWorld
  | 0 => w
  | n + 1 => enterStep cfg now (enterMany cfg now w n)

/-- Resolution of the shared in-flight authentication attempt with boolean
outcome `b` and post-attempt session `newSession`: all awaiting callers
observe `b`, and the pending marker is cleared. -/
def settleStep (b : Bool) (newSession : Option SessionState) (w : EnsureWorld) : EnsureWorld :=
  { w with pending := false
           waiters := 0
           session := newSession
           results := List.replicate w.waiters b ++ w.results }

end SessionManager

/-! Section: embedding of PiholeClient.request in src/client.ts (the facade). -/

namespace PiholeClient

/-- Observable trace of one `PiholeClient.request` call: the returned
result, how many `handleUnauthorized()` calls were made, how many delegated
HTTP requests were issued, and the auth headers passed to the retried
request when one was made. -/
structure Trace (α : Type) where
  result : Result α PiholeError
  reauthAttempts : Nat
  httpRequests : Nat
  retryHeaders : Option (Option (String × String))
deriving Repr

/-- Embeds `PiholeClient.request(method, path, body)` after `ensureSession()` has
completed: `sm` is the session-manager state at that point and `ensured`
the boolean `ensureSession()` returned.  `doRequest i h` is the outcome of
the `i`-th delegated `http.request` call when issued with auth headers `h`;
`loginResult` is the outcome of the login request that `handleUnauthorized`
would issue.  Returns the trace and the final session-manager state. -/
def request {α : Type} (sm : SessionManager.State) (now : Nat) (ensured : Bool)
    (doRequest : Nat → Option (String × String) → Result α PiholeError)
    (loginResult : Result AuthResponse PiholeError) :
    Trace α × SessionManager.State :=
  if ensured = false then
    (⟨.err (createError .Unauthorized "Not authenticated" 401), 0, 0, none⟩, sm)
  else
    match doRequest 0 (SessionManager.getAuthHeaders sm.state) with
    | .ok d => (⟨.ok d, 0, 1, none⟩, sm)
    | .err e =>
      if e.status = 401 then
        let r := SessionManager.handleUnauthorized sm now loginResult
        if r.returned then
          let hdrs := SessionManager.getAuthHeaders r.state.state
          (⟨doRequest 1 hdrs, 1, 2, some hdrs⟩, r.state)
        else (⟨.err e, 1, 1, none⟩, r.state)
      else (⟨.err e, 0, 1, none⟩, sm)

end PiholeClient

/-! Section: helper lemmas about the retry loop. -/

namespace HttpClient

lemma requestLoop_attempts_le {α : Type} (cfg : HttpConfig)
    (exec : Nat → Result α PiholeError) :
    ∀ (r a : Nat) (last : Option PiholeError),
      (requestLoop cfg exec r a last).attemptsMade ≤ r := by
  intro r
  induction r with
  | zero => intro a last; simp [requestLoop]
  | succ r ih =>
    intro a last
    simp only [requestLoop]
    cases hx : exec a with
    | ok d => simp
    | err e =>
      by_cases hr : isRetryable e.code
      · simp only [hr, if_true]
        have := ih (a + 1) (some e)
        simpa using Nat.succ_le_succ this
      · simp [hr]

lemma requestLoop_success {α : Type} (cfg : HttpConfig)
    (exec : Nat → Result α PiholeError) (d : α) :
    ∀ (k r a : Nat) (last : Option PiholeError), k < r →
      (∀ j, j < k → ∃ e, exec (a + j) = .err e ∧ isRetryable e.code = true) →
      exec (a + k) = .ok d →
      (requestLoop cfg exec r a last).result = .ok d ∧
        (requestLoop cfg exec r a last).attemptsMade = k + 1 := by
  intro k
  induction k with
  | zero =>
    intro r a last hk _ hok
    obtain ⟨r, rfl⟩ := Nat.exists_eq_succ_of_ne_zero (Nat.pos_iff_ne_zero.mp hk)
    simp only [Nat.add_zero] at hok
    simp [requestLoop, hok]
  | succ k ih =>
    intro r a last hk hpre hok
    obtain ⟨r, rfl⟩ := Nat.exists_eq_succ_of_ne_zero (Nat.pos_iff_ne_zero.mp (Nat.lt_of_le_of_lt (Nat.zero_le _) hk))
    obtain ⟨e0, he0, hr0⟩ := hpre 0 (Nat.succ_pos k)
    simp only [Nat.add_zero] at he0
    have hrec := ih r (a + 1) (some e0) (Nat.lt_of_succ_lt_succ hk)
      (fun j hj => by
        obtain ⟨e, he, hre⟩ := hpre (j + 1) (Nat.succ_lt_succ hj)
        exact ⟨e, by rw [show a + 1 + j = a + (j + 1) by omega]; exact he, hre⟩)
      (by rw [show a + 1 + k = a + (k + 1) by omega]; exact hok)
    simp only [requestLoop, he0, hr0, if_true]
    exact ⟨hrec.1, by simp [hrec.2]⟩

lemma requestLoop_stop {α : Type} (cfg : HttpConfig)
    (exec : Nat → Result α PiholeError) (e : PiholeError) :
    ∀ (k r a : Nat) (last : Option PiholeError), k < r →
      (∀ j, j < k → ∃ ej, exec (a + j) = .err ej ∧ isRetryable ej.code = true) →
      exec (a + k) = .err e → isRetryable e.code = false →
      (requestLoop cfg exec r a last).result = .err e ∧
        (requestLoop cfg exec r a last).attemptsMade = k + 1 := by
  intro k
  induction k with
  | zero =>
    intro r a last hk _ herr hnr
    obtain ⟨r, rfl⟩ := Nat.exists_eq_succ_of_ne_zero (Nat.pos_iff_ne_zero.mp hk)
    simp only [Nat.add_zero] at herr
    simp [requestLoop, herr, hnr]
  | succ k ih =>
    intro r a last hk hpre herr hnr
    obtain ⟨r, rfl⟩ := Nat.exists_eq_succ_of_ne_zero (Nat.pos_iff_ne_zero.mp (Nat.lt_of_le_of_lt (Nat.zero_le _) hk))
    obtain ⟨e0, he0, hr0⟩ := hpre 0 (Nat.succ_pos k)
    simp only [Nat.add_zero] at he0
    have hrec := ih r (a + 1) (some e0) (Nat.lt_of_succ_lt_succ hk)
      (fun j hj => by
        obtain ⟨ej, he, hre⟩ := hpre (j + 1) (Nat.succ_lt_succ hj)
        exact ⟨ej, by rw [show a + 1 + j = a + (j + 1) by omega]; exact he, hre⟩)
      (by rw [show a + 1 + k = a + (k + 1) by omega]; exact herr) hnr
    simp only [requestLoop, he0, hr0, if_true]
    exact ⟨hrec.1, by simp [hrec.2]⟩

lemma requestLoop_allfail {α : Type} (cfg : HttpConfig)
    (exec : Nat → Result α PiholeError) :
    ∀ (r a : Nat) (last : Option PiholeError) (e : PiholeError), 1 ≤ r →
      (∀ j, j < r → ∃ ej, exec (a + j) = .err ej ∧ isRetryable ej.code = true) →
      exec (a + (r - 1)) = .err e →
      (requestLoop cfg exec r a last).result = .err e ∧
        (requestLoop cfg exec r a last).attemptsMade = r := by
  intro r
  induction r with
  | zero => intro a last e h; omega
  | succ r ih =>
    intro a last e _ hall hlast
    obtain ⟨e0, he0, hr0⟩ := hall 0 (Nat.succ_pos r)
    simp only [Nat.add_zero] at he0
    cases Nat.eq_zero_or_pos r with
    | inl hr =>
      subst hr
      have hlast' : exec a = .err e := by simpa using hlast
      rw [hlast'] at he0
      cases he0
      simp [requestLoop, hlast', hr0]
    | inr hr =>
      have hrec := ih (a + 1) (some e0) e hr
        (fun j hj => by
          obtain ⟨ej, he, hre⟩ := hall (j + 1) (Nat.succ_lt_succ hj)
          exact ⟨ej, by rw [show a + 1 + j = a + (j + 1) by omega]; exact he, hre⟩)
        (by rw [show a + 1 + (r - 1) = a + (r + 1 - 1) by omega]; exact hlast)
      simp only [requestLoop, he0, hr0, if_true]
      exact ⟨hrec.1, by simp [hrec.2]⟩

lemma requestLoop_delays_get {α : Type} (cfg : HttpConfig)
    (exec : Nat → Result α PiholeError) :
    ∀ (r a : Nat) (last : Option PiholeError) (j : Nat),
      j < (requestLoop cfg exec r a last).delays.length →
      (requestLoop cfg exec r a last).delays.getD j 0 = calculateDelay cfg (a + j) := by
  intro r
  induction r with
  | zero => intro a last j h; simp [requestLoop] at h
  | succ r ih =>
    intro a last j h
    cases hx : exec a with
    | ok d => simp [requestLoop, hx] at h
    | err e =>
      by_cases hr : isRetryable e.code
      · cases Nat.eq_zero_or_pos r with
        | inl hz =>
          subst hz
          simp [requestLoop, hx, hr] at h
        | inr hrp =>
          have hne : ¬ r = 0 := Nat.pos_iff_ne_zero.mp hrp
          simp only [requestLoop, hx, hr, if_true, hne, if_false,
            List.singleton_append, List.length_cons] at h ⊢
          cases j with
          | zero => simp
          | succ j =>
            simp only [List.getD_cons_succ]
            have := ih (a + 1) (some e) j (Nat.lt_of_succ_lt_succ h)
            rw [this]
            congr 1
            omega
      · simp [requestLoop, hx, hr] at h

lemma request_attempts_le {α : Type} (cfg : HttpConfig) (noRetry : Bool)
    (exec : Nat → Result α PiholeError) :
    (request cfg noRetry exec).attemptsMade ≤ (if noRetry then 1 else cfg.maxRetries + 1) := by
  unfold request
  by_cases hb : cfg.baseUrl = ""
  · simp only [hb, if_true]
    split <;> simp
  · simp only [hb, if_false]
    exact requestLoop_attempts_le cfg exec _ 0 none

lemma request_eq_loop {α : Type} (cfg : HttpConfig) (noRetry : Bool)
    (exec : Nat → Result α PiholeError) (hbase : cfg.baseUrl ≠ "") :
    request cfg noRetry exec =
      requestLoop cfg exec (if noRetry then 1 else cfg.maxRetries + 1) 0 none := by
  simp [request, hbase]

lemma requestLoop_one_attempt {α : Type} (cfg : HttpConfig)
    (exec : Nat → Result α PiholeError) (a : Nat) (last : Option PiholeError) :
    (requestLoop cfg exec 1 a last).attemptsMade = 1 := by
  cases hx : exec a with
  | ok d => simp [requestLoop, hx]
  | err e => by_cases hr : isRetryable e.code <;> simp [requestLoop, hx, hr]

end HttpClient

/-! Section: concrete fixtures used by witnesses and counterexamples. -/

/-- Default configuration with a configured base URL. -/
def exampleHttpConfig : HttpConfig :=
  { DEFAULT_HTTP_CONFIG with baseUrl := "u" }

/-- A retryable server error. -/
def exampleServerError : PiholeError := createError .ServerError "e" 500

/-- An attempt oracle that fails with a retryable 500 three times and then
succeeds. -/
def exampleFlaky : Nat → Result Nat PiholeError :=
  fun i => if i < 3 then .err exampleServerError else .ok 7

/-! Section: claims about the retry orchestrator. -/

/-- C1: retry policy of `HttpClient.request`.  With a configured base URL:
a `noRetry` descriptor makes exactly one attempt; otherwise at most
`maxRetries + 1` attempts are made; a failed attempt with a non-retryable
error kind (first point where the run diverges from retryable failures) is
returned immediately after that attempt; a success is returned immediately;
if every allowed attempt fails with a retryable error the last observed
failure is returned after `maxRetries + 1` attempts; in particular a run
that fails retryably `maxRetries` times and then succeeds returns the
success after exactly `maxRetries + 1` attempts, and a first attempt that
fails non-retryably ends the call after exactly 1 attempt. -/
theorem claim_C1_retry_policy {α : Type} (cfg : HttpConfig)
    (exec : Nat → Result α PiholeError) (hbase : cfg.baseUrl ≠ "") :
    (HttpClient.request cfg true exec).attemptsMade = 1 ∧
    (HttpClient.request cfg false exec).attemptsMade ≤ cfg.maxRetries + 1 ∧
    (∀ k e, k ≤ cfg.maxRetries →
      (∀ j, j < k → ∃ ej, exec j = .err ej ∧ isRetryable ej.code = true) →
      exec k = .err e → isRetryable e.code = false →
      (HttpClient.request cfg false exec).result = .err e ∧
        (HttpClient.request cfg false exec).attemptsMade = k + 1) ∧
    (∀ k d, k ≤ cfg.maxRetries →
      (∀ j, j < k → ∃ ej, exec j = .err ej ∧ isRetryable ej.code = true) →
      exec k = .ok d →
      (HttpClient.request cfg false exec).result = .ok d ∧
        (HttpClient.request cfg false exec).attemptsMade = k + 1) ∧
    ((∀ j, j ≤ cfg.maxRetries → ∃ ej, exec j = .err ej ∧ isRetryable ej.code = true) →
      ∀ e, exec cfg.maxRetries = .err e →
      (HttpClient.request cfg false exec).result = .err e ∧
        (HttpClient.request cfg false exec).attemptsMade = cfg.maxRetries + 1) ∧
    (∀ d, (∀ j, j < cfg.maxRetries → ∃ ej, exec j = .err ej ∧ isRetryable ej.code = true) →
      exec cfg.maxRetries = .ok d →
      (HttpClient.request cfg false exec).result = .ok d ∧
        (HttpClient.request cfg false exec).attemptsMade = cfg.maxRetries + 1) ∧
    (∀ e, exec 0 = .err e → isRetryable e.code = false →
      (HttpClient.request cfg false exec).result = .err e ∧
        (HttpClient.request cfg false exec).attemptsMade = 1) := by
  rw [HttpClient.request_eq_loop cfg true exec hbase,
    HttpClient.request_eq_loop cfg false exec hbase]
  simp only [if_true, if_false, Bool.true_eq_false, Bool.false_eq_true]
  refine ⟨?_, ?_, ?_, ?_, ?_, ?_, ?_⟩
  · exact HttpClient.requestLoop_one_attempt cfg exec 0 none
  · exact HttpClient.requestLoop_attempts_le cfg exec _ 0 none
  · intro k e hk hpre herr hnr
    exact HttpClient.requestLoop_stop cfg exec e k (cfg.maxRetries + 1) 0 none
      (by omega) (fun j hj => by simpa using hpre j hj) (by simpa using herr) hnr
  · intro k d hk hpre hok
    exact HttpClient.requestLoop_success cfg exec d k (cfg.maxRetries + 1) 0 none
      (by omega) (fun j hj => by simpa using hpre j hj) (by simpa using hok)
  · intro hall e herr
    exact HttpClient.requestLoop_allfail cfg exec (cfg.maxRetries + 1) 0 none e
      (by omega) (fun j hj => by simpa using hall j (by omega)) (by simpa using herr)
  · intro d hpre hok
    exact HttpClient.requestLoop_success cfg exec d cfg.maxRetries (cfg.maxRetries + 1)
      0 none (by omega) (fun j hj => by simpa using hpre j hj) (by simpa using hok)
  · intro e herr hnr
    exact HttpClient.requestLoop_stop cfg exec e 0 (cfg.maxRetries + 1) 0 none
      (by omega) (fun j hj => by omega) (by simpa using herr) hnr

/-- Witness for C1 at a concrete configuration and oracle. -/
theorem claim_C1_retry_policy_witness :
    exampleHttpConfig.baseUrl ≠ "" ∧
    (HttpClient.request exampleHttpConfig true exampleFlaky).attemptsMade = 1 :=
  ⟨by decide, (claim_C1_retry_policy exampleHttpConfig exampleFlaky (by decide)).1⟩

/-- C5: every backoff sleep of a `HttpClient.request` run at sleep position
`i` (which is attempt index `i`) waits `calculateDelay cfg i`, and
`calculateDelay` is exactly `min(retryDelayMax, retryDelayBase *
backoffMultiplier^i)`; with the default configuration the delays for
attempt indices 0, 1, 2 are 1000, 2000 and 4000 ms, and a default-config
run with three retryable failures then a success sleeps exactly
[1000, 2000, 4000]. -/
theorem claim_C5_backoff_delay :
    (∀ (cfg : HttpConfig) (i : Nat),
      HttpClient.calculateDelay cfg i =
        min cfg.retryDelayMax (cfg.retryDelayBase * cfg.backoffMultiplier ^ i)) ∧
    (∀ (α : Type) (cfg : HttpConfig) (noRetry : Bool)
      (exec : Nat → Result α PiholeError) (j : Nat),
      j < (HttpClient.request cfg noRetry exec).delays.length →
      (HttpClient.request cfg noRetry exec).delays.getD j 0 =
        HttpClient.calculateDelay cfg j) ∧
    HttpClient.calculateDelay DEFAULT_HTTP_CONFIG 0 = 1000 ∧
    HttpClient.calculateDelay DEFAULT_HTTP_CONFIG 1 = 2000 ∧
    HttpClient.calculateDelay DEFAULT_HTTP_CONFIG 2 = 4000 ∧
    (HttpClient.request exampleHttpConfig false exampleFlaky).delays = [1000, 2000, 4000] := by
  refine ⟨?_, ?_, by decide, by decide, by decide, by decide⟩
  · intro cfg i
    exact Nat.min_comm _ _
  · intro α cfg noRetry exec j hj
    by_cases hb : cfg.baseUrl = ""
    · simp [HttpClient.request, hb] at hj
    · rw [HttpClient.request_eq_loop cfg noRetry exec hb] at hj ⊢
      simpa using HttpClient.requestLoop_delays_get cfg exec _ 0 none j hj

/-- Witness for C5's quantified sleep clause at a concrete run. -/
theorem claim_C5_backoff_delay_witness :
    2 < (HttpClient.request exampleHttpConfig false exampleFlaky).delays.length ∧
    (HttpClient.request exampleHttpConfig false exampleFlaky).delays.getD 2 0 =
      HttpClient.calculateDelay exampleHttpConfig 2 :=
  ⟨by decide, claim_C5_backoff_delay.2.1 Nat exampleHttpConfig false exampleFlaky 2 (by decide)⟩

/-- C10: `statusToErrorCode` is total, and every status below 400 that is
not in the explicit table (e.g. 0 or any 3xx) maps to ServerError, because
the default branch only tests `400 <= status < 500` for BadRequest. -/
theorem claim_C10_status_below_400 (status : Nat) (h : status < 400) :
    statusToErrorCode status = .ServerError := by
  have h1 : status ≠ 400 := by omega
  have h2 : status ≠ 401 := by omega
  have h3 : status ≠ 403 := by omega
  have h4 : status ≠ 404 := by omega
  have h5 : status ≠ 409 := by omega
  have h6 : status ≠ 422 := by omega
  have h7 : status ≠ 500 := by omega
  have h8 : status ≠ 502 := by omega
  have h9 : status ≠ 503 := by omega
  have h10 : status ≠ 504 := by omega
  have h11 : ¬(400 ≤ status ∧ status < 500) := by omega
  simp only [statusToErrorCode, if_neg h1, if_neg h2, if_neg h3, if_neg h4, if_neg h5,
    if_neg h6, if_neg h7, if_neg h8, if_neg h9, if_neg h10, if_neg h11]

/-- Witness for C10 at status 302 (and hence also 0-style statuses). -/
theorem claim_C10_status_below_400_witness :
    302 < 400 ∧ statusToErrorCode 302 = .ServerError :=
  ⟨by decide, claim_C10_status_below_400 302 (by decide)⟩

/-! Section: claims about error classification of non-2xx responses. -/

/-- Modelled from the claim's words (for the comparison only): the claimed
classification of a non-2xx response, in which any supplied key — the empty
string included — takes precedence and is resolved through the key table. -/
def claimedErrorCodeOfResponse (status : Nat)
    (body : Option HttpClient.ApiErrorBody) : PiholeErrorCode :=
  match body.bind (·.key) with
  | some k => apiKeyToErrorCode k
  | none => statusToErrorCode status

/-- C6 counterexample: a 404 response whose error body supplies the key
`""`.  The claimed mapping sends any supplied key through the key table
(key `""` is unlisted, hence Unknown), but the source tests the key with JS
truthiness and classifies by status instead, yielding NotFound. -/
theorem claim_C6_counterexample :
    claimedErrorCodeOfResponse 404 (some ⟨some "", none, none⟩) = .Unknown ∧
    (HttpClient.parseErrorResponse 404 (some ⟨some "", none, none⟩)).code = .NotFound ∧
    (HttpClient.parseErrorResponse 404 (some ⟨some "", none, none⟩)).code ≠
      claimedErrorCodeOfResponse 404 (some ⟨some "", none, none⟩) := by
  refine ⟨rfl, rfl, by decide⟩

/-- C6 (amended): when the parsed error body supplies a non-empty key the
code is determined by the key table, taking precedence over the status
mapping; when no key or an empty key is present the code is determined
solely by the HTTP status; and the two tables are exactly as listed
(unauthorized/auth_failed→Unauthorized, totp_required→TotpRequired,
bad_totp→InvalidTotp, session_expired→SessionExpired, not_found→NotFound,
conflict→Conflict, bad_request→BadRequest, anything else→Unknown;
400→BadRequest, 401/403→Unauthorized, 404→NotFound, 409→Conflict,
422→ValidationError, 500→ServerError, 502/503/504→ServiceUnavailable, any
other 4xx→BadRequest, any other 5xx→ServerError). -/
theorem claim_C6_error_classification (status : Nat)
    (body : Option HttpClient.ApiErrorBody) :
    (∀ k, body.bind (·.key) = some k → k ≠ "" →
      (HttpClient.parseErrorResponse status body).code = apiKeyToErrorCode k) ∧
    (body.bind (·.key) = none ∨ body.bind (·.key) = some "" →
      (HttpClient.parseErrorResponse status body).code = statusToErrorCode status) ∧
    (apiKeyToErrorCode "unauthorized" = .Unauthorized ∧
      apiKeyToErrorCode "auth_failed" = .Unauthorized ∧
      apiKeyToErrorCode "totp_required" = .TotpRequired ∧
      apiKeyToErrorCode "bad_totp" = .InvalidTotp ∧
      apiKeyToErrorCode "session_expired" = .SessionExpired ∧
      apiKeyToErrorCode "not_found" = .NotFound ∧
      apiKeyToErrorCode "conflict" = .Conflict ∧
      apiKeyToErrorCode "bad_request" = .BadRequest) ∧
    (∀ k, k ∉ (["unauthorized", "auth_failed", "totp_required", "bad_totp",
        "session_expired", "not_found", "conflict", "bad_request"] : List String) →
      apiKeyToErrorCode k = .Unknown) ∧
    (statusToErrorCode 400 = .BadRequest ∧ statusToErrorCode 401 = .Unauthorized ∧
      statusToErrorCode 403 = .Unauthorized ∧ statusToErrorCode 404 = .NotFound ∧
      statusToErrorCode 409 = .Conflict ∧ statusToErrorCode 422 = .ValidationError ∧
      statusToErrorCode 500 = .ServerError ∧ statusToErrorCode 502 = .ServiceUnavailable ∧
      statusToErrorCode 503 = .ServiceUnavailable ∧ statusToErrorCode 504 = .ServiceUnavailable) ∧
    (∀ s, 400 ≤ s → s < 500 → s ∉ ([400, 401, 403, 404, 409, 422] : List Nat) →
      statusToErrorCode s = .BadRequest) ∧
    (∀ s, 500 ≤ s → s < 600 → s ∉ ([500, 502, 503, 504] : List Nat) →
      statusToErrorCode s = .ServerError) := by
  refine ⟨?_, ?_, by decide, ?_, by decide, ?_, ?_⟩
  · intro k hk hne
    simp [HttpClient.parseErrorResponse, hk, truthy, hne, createError]
  · intro hk
    cases hk with
    | inl h => simp [HttpClient.parseErrorResponse, h, truthy, createError]
    | inr h => simp [HttpClient.parseErrorResponse, h, truthy, createError]
  · intro k hk
    simp only [List.mem_cons, List.not_mem_nil, or_false] at hk
    push_neg at hk
    obtain ⟨h1, h2, h3, h4, h5, h6, h7, h8⟩ := hk
    simp [apiKeyToErrorCode, h1, h2, h3, h4, h5, h6, h7, h8]
  · intro s hlo hhi hmem
    simp only [List.mem_cons, List.not_mem_nil, or_false] at hmem
    push_neg at hmem
    obtain ⟨h1, h2, h3, h4, h5, h6⟩ := hmem
    have h7 : s ≠ 500 := by omega
    have h8 : s ≠ 502 := by omega
    have h9 : s ≠ 503 := by omega
    have h10 : s ≠ 504 := by omega
    have h11 : 400 ≤ s ∧ s < 500 := ⟨hlo, hhi⟩
    simp only [statusToErrorCode, if_neg h1, if_neg h2, if_neg h3, if_neg h4, if_neg h5,
      if_neg h6, if_neg h7, if_neg h8, if_neg h9, if_neg h10, if_pos h11]
  · intro s hlo hhi hmem
    simp only [List.mem_cons, List.not_mem_nil, or_false] at hmem
    push_neg at hmem
    obtain ⟨h7, h8, h9, h10⟩ := hmem
    have h1 : s ≠ 400 := by omega
    have h2 : s ≠ 401 := by omega
    have h3 : s ≠ 403 := by omega
    have h4 : s ≠ 404 := by omega
    have h5 : s ≠ 409 := by omega
    have h6 : s ≠ 422 := by omega
    have h11 : ¬(400 ≤ s ∧ s < 500) := by omega
    simp only [statusToErrorCode, if_neg h1, if_neg h2, if_neg h3, if_neg h4, if_neg h5,
      if_neg h6, if_neg h7, if_neg h8, if_neg h9, if_neg h10, if_neg h11]

/-- Witness for C6's key-precedence clause at a concrete response. -/
theorem claim_C6_error_classification_witness :
    ("conflict" : String) ≠ "" ∧
    (HttpClient.parseErrorResponse 500 (some ⟨some "conflict", none, none⟩)).code =
      apiKeyToErrorCode "conflict" :=
  ⟨by decide,
    (claim_C6_error_classification 500 (some ⟨some "conflict", none, none⟩)).1
      "conflict" rfl (by decide)⟩

/-- C9: transport exception classification (status 0 in every case, in the
source's match order): an aborted attempt (a JS `Error` named
`AbortError`) becomes Timeout; otherwise an SSL/certificate message becomes
CertificateError with the out-of-band acceptance hint; otherwise a
refused-connection message becomes ConnectionRefused; any other JS `Error`
becomes a generic NetworkError carrying its message; a thrown value that is
not an `Error` becomes ErrorKind.Unknown. -/
theorem claim_C9_transport_classification (nm msg : String) :
    (HttpClient.handleFetchError (.jsError nm msg)).status = 0 ∧
    (nm = "AbortError" →
      HttpClient.handleFetchError (.jsError nm msg) =
        createError .Timeout "Request timed out" 0) ∧
    (nm ≠ "AbortError" → HttpClient.sslPattern (HttpClient.strToLower msg) = true →
      HttpClient.handleFetchError (.jsError nm msg) =
        createError .CertificateError "SSL certificate error" 0
          (some "Accept the certificate in your browser first")) ∧
    (nm ≠ "AbortError" → HttpClient.sslPattern (HttpClient.strToLower msg) = false →
      HttpClient.refusedPattern (HttpClient.strToLower msg) = true →
      HttpClient.handleFetchError (.jsError nm msg) =
        createError .ConnectionRefused "Connection refused" 0) ∧
    (nm ≠ "AbortError" → HttpClient.sslPattern (HttpClient.strToLower msg) = false →
      HttpClient.refusedPattern (HttpClient.strToLower msg) = false →
      HttpClient.handleFetchError (.jsError nm msg) =
        createError .NetworkError msg 0) ∧
    HttpClient.handleFetchError .nonError = createError .Unknown "Unknown error occurred" 0 := by
  refine ⟨?_, ?_, ?_, ?_, ?_, rfl⟩
  · by_cases ha : nm = "AbortError"
    · simp [HttpClient.handleFetchError, ha, createError]
    · by_cases hs : HttpClient.sslPattern (HttpClient.strToLower msg)
      · simp [HttpClient.handleFetchError, ha, hs, createError]
      · by_cases hr : HttpClient.refusedPattern (HttpClient.strToLower msg)
        all_goals simp [HttpClient.handleFetchError, ha, hs, hr, createError]
  · intro ha
    simp [HttpClient.handleFetchError, ha]
  · intro ha hs
    simp [HttpClient.handleFetchError, ha, hs]
  · intro ha hs hr
    simp [HttpClient.handleFetchError, ha, hs, hr]
  · intro ha hs hr
    simp [HttpClient.handleFetchError, ha, hs, hr]

/-- Witness for C9 at a concrete refused-connection exception. -/
theorem claim_C9_transport_classification_witness :
    ("TypeError" : String) ≠ "AbortError" ∧
    HttpClient.sslPattern (HttpClient.strToLower "Connection refused") = false ∧
    HttpClient.refusedPattern (HttpClient.strToLower "Connection refused") = true ∧
    HttpClient.handleFetchError (.jsError "TypeError" "Connection refused") =
      createError .ConnectionRefused "Connection refused" 0 :=
  ⟨by decide, by decide, by decide,
    (claim_C9_transport_classification "TypeError" "Connection refused").2.2.2.1
      (by decide) (by decide) (by decide)⟩

/-! Section: claims about the session manager. -/

/-- A populated session-manager state used as a concrete starting point:
an unexpired session and a stored password. -/
def exampleSessionMgr : SessionManager.State :=
  ⟨some ⟨"s1", "c1", 1000, false⟩, some "pw"⟩

/-- A non-TotpRequired login failure. -/
def exampleNetworkError : PiholeError := createError .NetworkError "b" 0

/-- A TotpRequired login failure. -/
def exampleTotpError : PiholeError := createError .TotpRequired "t" 401

/-- C4 counterexample: `authenticate` receives a login failure whose kind
is not TotpRequired while a session object is present (reachable, e.g. a
refresh triggered by `needsRefresh`, or via `connect()`): the claim says
the Session is left cleared (absent), but the source returns false without
touching `this.state`, so the session is still present. -/
theorem claim_C4_counterexample :
    exampleNetworkError.code ≠ .TotpRequired ∧
    (SessionManager.authenticate exampleSessionMgr 2000 (.err exampleNetworkError)).returned
      = false ∧
    (SessionManager.authenticate exampleSessionMgr 2000 (.err exampleNetworkError)).state.state
      ≠ none := by
  refine ⟨by decide, rfl, by decide⟩

/-- C4 (amended): with a truthy stored password, every `authenticate` call
that receives a failure from the login request returns false; if the
classified kind is TotpRequired the Session becomes the inert two-factor
state (sid and csrf empty, expiry 0 hence already elapsed, flag set),
making `isTotpRequired()` true and `hasSession()` false; for any other
failure kind the entire manager state is left unchanged (in particular the
Session stays absent whenever it was absent before the call). -/
theorem claim_C4_authenticate_failure (st : SessionManager.State) (now : Nat)
    (e : PiholeError) (hpw : truthy st.password = true) :
    (SessionManager.authenticate st now (.err e)).returned = false ∧
    (e.code = .TotpRequired →
      (SessionManager.authenticate st now (.err e)).state.state = some ⟨"", "", 0, true⟩ ∧
      SessionManager.isTotpRequired
        (SessionManager.authenticate st now (.err e)).state.state = true ∧
      SessionManager.hasSession now
        (SessionManager.authenticate st now (.err e)).state.state = false) ∧
    (e.code ≠ .TotpRequired →
      SessionManager.authenticate st now (.err e) = ⟨st, false, true⟩) := by
  refine ⟨?_, ?_, ?_⟩
  · by_cases ht : e.code = .TotpRequired <;>
      simp [SessionManager.authenticate, hpw, ht]
  · intro ht
    simp [SessionManager.authenticate, hpw, ht, SessionManager.isTotpRequired,
      SessionManager.hasSession, SessionManager.isExpired]
  · intro ht
    simp [SessionManager.authenticate, hpw, ht]

/-- Witness for C4 (amended) at a concrete TotpRequired failure. -/
theorem claim_C4_authenticate_failure_witness :
    truthy exampleSessionMgr.password = true ∧
    (SessionManager.authenticate exampleSessionMgr 2000 (.err exampleTotpError)).returned
      = false :=
  ⟨by decide,
    (claim_C4_authenticate_failure exampleSessionMgr 2000 exampleTotpError (by decide)).1⟩

/-- C7: `logout()` postcondition.  Local session state is cleared afterwards
regardless of the server outcome; a network call is made exactly when a
session object existed; and the call returns true exactly when no session
existed, or the server call succeeded, or it failed with HTTP status 401 —
any other failure returns false with local state still cleared. -/
theorem claim_C7_logout (st : SessionManager.State) (res : Result Unit PiholeError) :
    (SessionManager.logout st res).state.state = none ∧
    (SessionManager.logout st res).madeCall = st.state.isSome ∧
    ((SessionManager.logout st res).returned = true ↔
      (st.state = none ∨ (∃ u, res = .ok u) ∨ (∃ e, res = .err e ∧ e.status = 401))) := by
  cases hs : st.state with
  | none =>
    cases res with
    | ok u => simp [SessionManager.logout, hs]
    | err e => simp [SessionManager.logout, hs]
  | some sess =>
    cases res with
    | ok u => simp [SessionManager.logout, hs, SessionManager.clear]
    | err e =>
      simp only [SessionManager.logout, hs, SessionManager.clear, Option.isSome_some]
      refine ⟨trivial, trivial, ?_⟩
      constructor
      · intro h
        exact Or.inr (Or.inr ⟨e, rfl, of_decide_eq_true h⟩)
      · intro h
        rcases h with h | ⟨u, hu⟩ | ⟨e2, he2, hst⟩
        · exact absurd h (by simp)
        · cases hu
        · cases he2
          exact decide_eq_true hst

/-- Modelled from the claim's words (for the comparison only): the claimed
session shape trichotomy at time `now` — absent, or fully populated with a
future expiry, or the two-factor-required state with an elapsed expiry. -/
def claimedSessionShape (now : Nat) (s : Option SessionState) : Bool :=
  match s with
  | none => true
  | some st =>
    (st.sid != "" && st.csrf != "" && decide (now < st.expiresAt) && !st.totpRequired) ||
    (st.sid == "" && st.csrf == "" && decide (st.expiresAt ≤ now) && st.totpRequired)

/-- The shape trichotomy the code actually maintains: absent, or populated
(non-empty sid and csrf, flag unset, expiry possibly already elapsed), or
the two-factor-required state (sid and csrf empty, expiry 0, flag set). -/
def sessionShape (s : Option SessionState) : Bool :=
  match s with
  | none => true
  | some st =>
    (st.sid != "" && st.csrf != "" && !st.totpRequired) ||
    (st.sid == "" && st.csrf == "" && st.expiresAt == 0 && st.totpRequired)

/-- C8 counterexample: a populated session satisfying the claimed shape at
time 500 expires, and a failed (non-TotpRequired) re-authentication at time
2000 leaves it in place: after that operation the session is present,
non-inert, but its expiry is no longer in the future, so the claimed
trichotomy is violated. -/
theorem claim_C8_counterexample :
    claimedSessionShape 500 exampleSessionMgr.state = true ∧
    (SessionManager.authenticate exampleSessionMgr 2000 (.err exampleNetworkError)).state.state
      = exampleSessionMgr.state ∧
    claimedSessionShape 2000
      (SessionManager.authenticate exampleSessionMgr 2000 (.err exampleNetworkError)).state.state
      = false := by
  refine ⟨by decide, rfl, by decide⟩

/-- On a truthy optional string, `getD ""` is non-empty. -/
lemma truthy_getD {o : Option String} (h : truthy o = true) : o.getD "" ≠ "" := by
  cases o with
  | none => simp [truthy] at h
  | some s =>
    simp only [Option.getD_some]
    exact of_decide_eq_true h

/-- C8 (amended): after every session-manager operation (given well-formed
success responses, i.e. non-empty sid and csrf), the Session is either
absent, or populated (non-empty sid and csrf, flag unset), or the
two-factor-required state (sid and csrf empty, expiry 0 hence elapsed, flag
set) — never any other mix; a populated session's expiry is strictly in the
future at the moment the constructor or a successful `authenticate` (with
positive validity) creates it, but may subsequently elapse, and a later
failed re-authentication leaves such an expired session in place rather
than clearing it. -/
theorem claim_C8_session_shape (cfg : SessionConfig) (st : SessionManager.State)
    (now : Nat) (res : Result AuthResponse PiholeError) (lres : Result Unit PiholeError)
    (hwf : ∀ resp, res = .ok resp → resp.session.sid ≠ "" ∧ resp.session.csrf ≠ "")
    (hshape : sessionShape st.state = true) :
    sessionShape (SessionManager.mkSessionManager cfg now).state = true ∧
    (∀ s, (SessionManager.mkSessionManager cfg now).state = some s → now < s.expiresAt) ∧
    sessionShape (SessionManager.clear st).state = true ∧
    sessionShape (SessionManager.authenticate st now res).state.state = true ∧
    (∀ resp, res = .ok resp → 1 ≤ resp.session.validity →
      (SessionManager.authenticate st now res).returned = true →
      ∀ s, (SessionManager.authenticate st now res).state.state = some s →
        now < s.expiresAt) ∧
    sessionShape (SessionManager.logout st lres).state.state = true ∧
    sessionShape (SessionManager.handleUnauthorized st now res).state.state = true := by
  have hauth : ∀ (st' : SessionManager.State), sessionShape st'.state = true →
      sessionShape (SessionManager.authenticate st' now res).state.state = true := by
    intro st' hs'
    by_cases hpw : truthy st'.password
    · cases res with
      | ok resp =>
        obtain ⟨hsid, hcsrf⟩ := hwf resp rfl
        simp [SessionManager.authenticate, hpw, SessionManager.updateSession,
          sessionShape, hsid, hcsrf]
      | err e =>
        by_cases ht : e.code = .TotpRequired
        · simp [SessionManager.authenticate, hpw, ht, sessionShape]
        · simpa [SessionManager.authenticate, hpw, ht] using hs'
    · simpa [SessionManager.authenticate, hpw] using hs'
  refine ⟨?_, ?_, by simp [SessionManager.clear, sessionShape], hauth st hshape, ?_, ?_, ?_⟩
  · by_cases hc : truthy cfg.sid && truthy cfg.csrf
    · have hsid := truthy_getD (Bool.and_elim_left hc)
      have hcsrf := truthy_getD (Bool.and_elim_right hc)
      simp [SessionManager.mkSessionManager, hc, sessionShape, hsid, hcsrf]
    · simp [SessionManager.mkSessionManager, hc, sessionShape]
  · intro s hes
    by_cases hc : truthy cfg.sid && truthy cfg.csrf
    · simp only [SessionManager.mkSessionManager, hc, if_true] at hes
      cases hes
      simp
    · simp [SessionManager.mkSessionManager, hc] at hes
  · intro resp hres hval hret s hpost
    by_cases hpw : truthy st.password
    · subst hres
      simp [SessionManager.authenticate, hpw, SessionManager.updateSession] at hpost
      subst hpost
      dsimp only
      omega
    · simp [SessionManager.authenticate, hpw] at hret
  · cases hls : st.state with
    | none => simpa [SessionManager.logout, hls] using hshape
    | some sess =>
      cases lres with
      | ok u => simp [SessionManager.logout, hls, SessionManager.clear, sessionShape]
      | err e => simp [SessionManager.logout, hls, SessionManager.clear, sessionShape]
  · exact hauth ⟨none, st.password⟩ (by simp [sessionShape])

/-- Witness for C8 (amended) at a concrete state and login outcome. -/
theorem claim_C8_session_shape_witness :
    sessionShape exampleSessionMgr.state = true ∧
    sessionShape
      (SessionManager.authenticate exampleSessionMgr 2000
        (.err exampleTotpError)).state.state = true :=
  ⟨by decide,
    (claim_C8_session_shape ⟨some "pw", none, none, true, 60⟩ exampleSessionMgr 2000
      (.err exampleTotpError) (.ok ()) (fun resp h => by cases h) (by decide)).2.2.2.1⟩

/-! Section: claim about the facade's one-shot 401 recovery. -/

/-- C2: when the delegated HTTP call of `PiholeClient.request` fails with
HTTP status 401, exactly one `handleUnauthorized()` re-authentication is
performed; if it returns true the original request is retried exactly once
with the refreshed auth headers (the headers of the post-re-authentication
state) and that second outcome is returned unchanged — whatever it is, a
second 401 included — with no further recovery cycle; if re-authentication
returns false the original 401 failure is returned unchanged after a single
HTTP request. -/
theorem claim_C2_facade_one_shot_401 {α : Type} (sm : SessionManager.State) (now : Nat)
    (doRequest : Nat → Option (String × String) → Result α PiholeError)
    (loginResult : Result AuthResponse PiholeError) (e : PiholeError)
    (hfirst : doRequest 0 (SessionManager.getAuthHeaders sm.state) = .err e)
    (h401 : e.status = 401) :
    (PiholeClient.request sm now true doRequest loginResult).1.reauthAttempts = 1 ∧
    ((SessionManager.handleUnauthorized sm now loginResult).returned = true →
      (PiholeClient.request sm now true doRequest loginResult).1.result =
        doRequest 1 (SessionManager.getAuthHeaders
          (SessionManager.handleUnauthorized sm now loginResult).state.state) ∧
      (PiholeClient.request sm now true doRequest loginResult).1.httpRequests = 2 ∧
      (PiholeClient.request sm now true doRequest loginResult).1.retryHeaders =
        some (SessionManager.getAuthHeaders
          (SessionManager.handleUnauthorized sm now loginResult).state.state) ∧
      (PiholeClient.request sm now true doRequest loginResult).2 =
        (SessionManager.handleUnauthorized sm now loginResult).state) ∧
    ((SessionManager.handleUnauthorized sm now loginResult).returned = false →
      (PiholeClient.request sm now true doRequest loginResult).1.result = .err e ∧
      (PiholeClient.request sm now true doRequest loginResult).1.httpRequests = 1 ∧
      (PiholeClient.request sm now true doRequest loginResult).2 =
        (SessionManager.handleUnauthorized sm now loginResult).state) := by
  by_cases hr : (SessionManager.handleUnauthorized sm now loginResult).returned
  · simp [PiholeClient.request, hfirst, h401, hr]
  · simp [PiholeClient.request, hfirst, h401, hr]

/-- A login success used by the C2 witness. -/
def exampleLoginOk : Result AuthResponse PiholeError := .ok ⟨⟨"s2", "c2", 300, false⟩⟩

/-- A request oracle whose first call fails with 401 and whose retry
succeeds. -/
def exampleDoRequest : Nat → Option (String × String) → Result Nat PiholeError :=
  fun i _ => if i = 0 then .err (createError .Unauthorized "x" 401) else .ok 3

/-- Witness for C2 at a concrete 401-then-recover run. -/
theorem claim_C2_facade_one_shot_401_witness :
    exampleDoRequest 0 (SessionManager.getAuthHeaders exampleSessionMgr.state) =
      .err (createError .Unauthorized "x" 401) ∧
    (createError .Unauthorized "x" 401).status = 401 ∧
    (PiholeClient.request exampleSessionMgr 2000 true exampleDoRequest
      exampleLoginOk).1.reauthAttempts = 1 :=
  ⟨by decide, by decide,
    (claim_C2_facade_one_shot_401 exampleSessionMgr 2000 exampleDoRequest exampleLoginOk
      (createError .Unauthorized "x" 401) (by decide) (by decide)).1⟩

/-! Section: claim about concurrent ensureSession deduplication. -/

/-- Under JS run-to-completion scheduling, once a first caller has entered
`ensureSession` with no usable session and made the attempt pending, every
further entry before settlement joins the same attempt. -/
lemma enterMany_spec (cfg : SessionConfig) (now : Nat) (w : EnsureWorld)
    (hfree : SessionManager.sessionUsable cfg now w.session = false)
    (hpend : w.pending = false) (hpw : truthy w.password = true) :
    ∀ n, 1 ≤ n →
      SessionManager.enterMany cfg now w n =
        { w with pending := true
                 loginRequests := w.loginRequests + 1
                 waiters := w.waiters + n } := by
  intro n
  induction n with
  | zero => intro h; omega
  | succ n ih =>
    intro _
    cases Nat.eq_zero_or_pos n with
    | inl h0 =>
      subst h0
      simp [SessionManager.enterMany, SessionManager.enterStep, hfree, hpend, hpw]
    | inr hpos =>
      have hstep := ih hpos
      simp only [SessionManager.enterMany, hstep]
      simp [SessionManager.enterStep, hfree, hpend, hpw]
      omega

/-- C3: authentication deduplication.  For every N ≥ 1, N concurrent
`ensureSession()` entries made while no usable session exists, none is
pending, and a truthy password is stored, issue exactly one login request;
all N callers end up awaiting that single shared attempt, the session is
not touched before it settles, and when the attempt settles with outcome
`b` all N callers observe `b` and the pending marker is cleared. -/
theorem claim_C3_auth_dedup (cfg : SessionConfig) (now : Nat) (w : EnsureWorld) (N : Nat)
    (hN : 1 ≤ N)
    (hfree : SessionManager.sessionUsable cfg now w.session = false)
    (hpend : w.pending = false) (hw : w.waiters = 0)
    (hpw : truthy w.password = true) :
    (SessionManager.enterMany cfg now w N).loginRequests = w.loginRequests + 1 ∧
    (SessionManager.enterMany cfg now w N).pending = true ∧
    (SessionManager.enterMany cfg now w N).waiters = N ∧
    (SessionManager.enterMany cfg now w N).session = w.session ∧
    (SessionManager.enterMany cfg now w N).results = w.results ∧
    (∀ (b : Bool) (ns : Option SessionState),
      (SessionManager.settleStep b ns (SessionManager.enterMany cfg now w N)).pending
        = false ∧
      (SessionManager.settleStep b ns (SessionManager.enterMany cfg now w N)).waiters = 0 ∧
      (SessionManager.settleStep b ns (SessionManager.enterMany cfg now w N)).results =
        List.replicate N b ++ w.results) := by
  have hspec := enterMany_spec cfg now w hfree hpend hpw N hN
  rw [hspec]
  refine ⟨rfl, rfl, by simp [hw], rfl, rfl, ?_⟩
  intro b ns
  refine ⟨rfl, rfl, ?_⟩
  simp [SessionManager.settleStep, hw]

/-- Witness for C3 with three concurrent callers from a fresh manager. -/
theorem claim_C3_auth_dedup_witness :
    (SessionManager.enterMany ⟨some "pw", none, none, true, 60⟩ 5000
      ⟨none, some "pw", false, 0, 0, []⟩ 3).loginRequests = 0 + 1 :=
  (claim_C3_auth_dedup ⟨some "pw", none, none, true, 60⟩ 5000
    ⟨none, some "pw", false, 0, 0, []⟩ 3 (by decide) (by decide) rfl rfl (by decide)).1

end PiholeApi
